import Mathlib

/-!
Verification of the scalar Kalman filter demo (`kalman.py`).

The recursion is embedded over exact rational arithmetic `ℚ`.  The four
per-step helper functions are translated one-to-one from the source; the
main loop is modelled twice:

* `kalman_filter` — a state-passing translation of the Python loop, with
  the four sequences held as lists written in place via `List.set`,
  mirroring `x_estimate[k] = ...` / `error_estimate[k] = ...`;
* `kalman_pair` — the mathematical pair recursion `(x_hat[k], P[k])`,
  used for the analytic claims, and proved to agree with the list
  version entry by entry.
-/

/-- Source `_calculate_model_variance`: `last_error_estimate + process_variance`. -/
def calculate_model_variance (last_error_estimate process_variance : ℚ) : ℚ :=
  last_error_estimate + process_variance

/-- Source `_calculate_kalman_gain`: `model_variance / (model_variance + measurement_variance)`.
Total over `ℚ` (`0/0 = 0`); where the vanishing denominator matters, the
float division's NaN is modelled separately by `nan_kalman_gain` below. -/
def calculate_kalman_gain (model_variance measurement_variance : ℚ) : ℚ :=
  model_variance / (model_variance + measurement_variance)

/-- Source `_calculate_x_estimate`: `last_x_estimate + kalman_gain * (measurement - last_x_estimate)`. -/
def calculate_x_estimate (last_x_estimate kalman_gain measurement : ℚ) : ℚ :=
  last_x_estimate + kalman_gain * (measurement - last_x_estimate)

/-- Source `_calculate_error_estimate`: `(1 - kalman_gain) * model_variance`. -/
def calculate_error_estimate (kalman_gain model_variance : ℚ) : ℚ :=
  (1 - kalman_gain) * model_variance

/-- The mutable state of `kalman_filter`: the four sequences of the program. -/
structure KState where
  x : List ℚ
  z : List ℚ
  x_estimate : List ℚ
  error_estimate : List ℚ
  deriving Repr, DecidableEq

/-- One iteration of the `for k in range(1, n_of_points)` loop body:
reads `error_estimate[k-1]`, `x_estimate[k-1]`, `z[k]` and writes
`x_estimate[k]` and `error_estimate[k]`. -/
def kalman_step (process_variance measurement_variance : ℚ) (s : KState) (k : ℕ) : KState :=
  let model_variance := calculate_model_variance (s.error_estimate.getD (k - 1) 0) process_variance
  let kalman_gain := calculate_kalman_gain model_variance measurement_variance
  { s with
    x_estimate := s.x_estimate.set k
      (calculate_x_estimate (s.x_estimate.getD (k - 1) 0) kalman_gain (s.z.getD k 0)),
    error_estimate := s.error_estimate.set k
      (calculate_error_estimate kalman_gain model_variance) }

/-- Run the loop body for the given list of step indices, in order. -/
def run_steps (process_variance measurement_variance : ℚ) (s : KState) (ks : List ℕ) : KState :=
  ks.foldl (kalman_step process_variance measurement_variance) s

/-- The arrays as allocated and initialised before the loop:
`x = np.zeros(n)`, the measurements `z`, `x_estimate = np.zeros(n)` with
`x_estimate[0] = x0`, `error_estimate = np.zeros(n)` with `error_estimate[0] = p0`.
Total in `n`; the index errors the writes raise on a zero-length allocation
are modelled separately by `checked_init_state` below. -/
def init_state (n : ℕ) (z : List ℚ) (x0 p0 : ℚ) : KState :=
  { x := List.replicate n 0,
    z := z,
    x_estimate := (List.replicate n 0).set 0 x0,
    error_estimate := (List.replicate n 0).set 0 p0 }

/-- Source `kalman_filter`, parameterised as in the spec's public contract:
step count `n`, the two variances, the measurement list `z`, and the initial
guesses `x0`, `p0` (the demo hard-codes `n = 500`, `process_variance = 0`,
`measurement_variance = 1/10`, `x0 = 0`, `p0 = 1`).  The loop runs
`k = 1, ..., n-1`. -/
def kalman_filter (n : ℕ) (process_variance measurement_variance : ℚ)
    (z : List ℚ) (x0 p0 : ℚ) : KState :=
  run_steps process_variance measurement_variance (init_state n z x0 p0) (List.range' 1 (n - 1))

/-- The pair `(x_hat[k], P[k])` of the recursion, with measurements given as a
function of the index. -/
def kalman_pair (process_variance measurement_variance : ℚ) (zf : ℕ → ℚ)
    (x0 p0 : ℚ) : ℕ → ℚ × ℚ
  | 0 => (x0, p0)
  | k + 1 =>
    let prev := kalman_pair process_variance measurement_variance zf x0 p0 k
    let model_variance := calculate_model_variance prev.2 process_variance
    let kalman_gain := calculate_kalman_gain model_variance measurement_variance
    (calculate_x_estimate prev.1 kalman_gain (zf (k + 1)),
     calculate_error_estimate kalman_gain model_variance)

/-- The error-estimate sequence `P[k]` on its own (it does not depend on the
measurements). -/
def error_seq (process_variance measurement_variance p0 : ℚ) : ℕ → ℚ
  | 0 => p0
  | k + 1 =>
    let model_variance :=
      calculate_model_variance (error_seq process_variance measurement_variance p0 k)
        process_variance
    calculate_error_estimate
      (calculate_kalman_gain model_variance measurement_variance) model_variance

/-- Closed form of the error recursion claimed by the spec (for
`process_variance = 0`): `P[k] = P[0] * r / (k * P[0] + r)`. -/
def error_closed_form (p0 measurement_variance : ℚ) (k : ℕ) : ℚ :=
  p0 * measurement_variance / (k * p0 + measurement_variance)

/-- `arr[i] = v` on a numpy array: the write fails (an index error) when `i`
is out of range, instead of being silently skipped. -/
def checked_set (l : List ℚ) (i : ℕ) (v : ℚ) : Option (List ℚ) :=
  if i < l.length then some (l.set i v) else none

/-- The initialisation with its failure modes kept, over an integer step
count: `np.zeros(n)` rejects a negative `n` (an invalid-argument error), and
the writes `x_estimate[0] = x0`, `error_estimate[0] = p0` fail with an index
error when the freshly allocated arrays are empty (`n = 0`).  `none` models
the raised exception. -/
def checked_init_state (n : ℤ) (z : List ℚ) (x0 p0 : ℚ) : Option KState :=
  if n < 0 then none
  else
    match checked_set (List.replicate n.toNat 0) 0 x0 with
    | none => none
    | some xe =>
      match checked_set (List.replicate n.toNat 0) 0 p0 with
      | none => none
      | some ee =>
        some { x := List.replicate n.toNat 0, z := z, x_estimate := xe,
               error_estimate := ee }

/-- `kalman_filter` with the initialisation's failure modes kept: the loop
runs only when initialisation succeeded; an exception during initialisation
propagates as `none`. -/
def checked_kalman_filter (n : ℤ) (process_variance measurement_variance : ℚ)
    (z : List ℚ) (x0 p0 : ℚ) : Option KState :=
  (checked_init_state n z x0 p0).map fun s =>
    run_steps process_variance measurement_variance s (List.range' 1 (n.toNat - 1))

/-- The gain with the float division's undefined case kept: when the
denominator `model_variance + measurement_variance` vanishes, the source's
float division yields a non-number (`0.0/0.0` is NaN); `none` models that
marker. -/
def nan_kalman_gain (model_variance measurement_variance : ℚ) : Option ℚ :=
  if model_variance + measurement_variance = 0 then none
  else some (calculate_kalman_gain model_variance measurement_variance)

/-- The error recursion with NaN propagation: once a step's gain is undefined
every later error estimate is a non-number (`none`). -/
def nan_error_seq (process_variance measurement_variance p0 : ℚ) : ℕ → Option ℚ
  | 0 => some p0
  | k + 1 =>
    (nan_error_seq process_variance measurement_variance p0 k).bind fun p =>
      (nan_kalman_gain (calculate_model_variance p process_variance)
        measurement_variance).map fun g =>
          calculate_error_estimate g (calculate_model_variance p process_variance)

/-- Exact run of the filter on the spec's golden measurement sequence
`z = [0, 1, -1, 1/2]` with `pv = 0`, `mv = 1/10`, `x0 = 0`, `p0 = 1`. -/
theorem golden_run_x_estimate :
    (kalman_filter 4 0 (1/10) [0, 1, -1, 1/2] 0 1).x_estimate
      = [0, 10/11, 0, 5/31] := by
  norm_num [kalman_filter, run_steps, init_state, kalman_step,
    calculate_model_variance, calculate_kalman_gain, calculate_x_estimate,
    calculate_error_estimate, List.range', List.replicate]

/-- Exact error-estimate sequence of the golden run. -/
theorem golden_run_error_estimate :
    (kalman_filter 4 0 (1/10) [0, 1, -1, 1/2] 0 1).error_estimate
      = [1, 1/11, 1/21, 1/31] := by
  norm_num [kalman_filter, run_steps, init_state, kalman_step,
    calculate_model_variance, calculate_kalman_gain, calculate_x_estimate,
    calculate_error_estimate, List.range', List.replicate]

/-! ### Basic lemmas about the loop -/

theorem kalman_step_x_eq (pv mv : ℚ) (s : KState) (k : ℕ) :
    (kalman_step pv mv s k).x = s.x := rfl

theorem kalman_step_z_eq (pv mv : ℚ) (s : KState) (k : ℕ) :
    (kalman_step pv mv s k).z = s.z := rfl

theorem run_steps_nil (pv mv : ℚ) (s : KState) : run_steps pv mv s [] = s := rfl

theorem run_steps_cons (pv mv : ℚ) (s : KState) (k : ℕ) (ks : List ℕ) :
    run_steps pv mv s (k :: ks) = run_steps pv mv (kalman_step pv mv s k) ks := rfl

theorem run_steps_append (pv mv : ℚ) (s : KState) (l₁ l₂ : List ℕ) :
    run_steps pv mv s (l₁ ++ l₂) = run_steps pv mv (run_steps pv mv s l₁) l₂ := by
  simp [run_steps, List.foldl_append]

theorem run_steps_x_eq (pv mv : ℚ) (ks : List ℕ) :
    ∀ s : KState, (run_steps pv mv s ks).x = s.x := by
  induction ks with
  | nil => intro s; rfl
  | cons k ks ih => intro s; rw [run_steps_cons, ih, kalman_step_x_eq]

theorem run_steps_z_eq (pv mv : ℚ) (ks : List ℕ) :
    ∀ s : KState, (run_steps pv mv s ks).z = s.z := by
  induction ks with
  | nil => intro s; rfl
  | cons k ks ih => intro s; rw [run_steps_cons, ih, kalman_step_z_eq]

theorem kalman_step_length_x_estimate (pv mv : ℚ) (s : KState) (k : ℕ) :
    (kalman_step pv mv s k).x_estimate.length = s.x_estimate.length := by
  simp [kalman_step]

theorem kalman_step_length_error_estimate (pv mv : ℚ) (s : KState) (k : ℕ) :
    (kalman_step pv mv s k).error_estimate.length = s.error_estimate.length := by
  simp [kalman_step]

theorem run_steps_length_x_estimate (pv mv : ℚ) (ks : List ℕ) :
    ∀ s : KState, (run_steps pv mv s ks).x_estimate.length = s.x_estimate.length := by
  induction ks with
  | nil => intro s; rfl
  | cons k ks ih => intro s; rw [run_steps_cons, ih, kalman_step_length_x_estimate]

theorem run_steps_length_error_estimate (pv mv : ℚ) (ks : List ℕ) :
    ∀ s : KState, (run_steps pv mv s ks).error_estimate.length = s.error_estimate.length := by
  induction ks with
  | nil => intro s; rfl
  | cons k ks ih => intro s; rw [run_steps_cons, ih, kalman_step_length_error_estimate]

theorem kalman_step_get_ne (pv mv : ℚ) (s : KState) (k j : ℕ) (h : j ≠ k) :
    (kalman_step pv mv s k).x_estimate[j]? = s.x_estimate[j]? ∧
    (kalman_step pv mv s k).error_estimate[j]? = s.error_estimate[j]? := by
  constructor <;> simp [kalman_step, List.getElem?_set_ne (Ne.symm h)]

theorem run_steps_get_not_mem (pv mv : ℚ) (ks : List ℕ) (j : ℕ) (hj : ∀ k ∈ ks, k ≠ j) :
    ∀ s : KState, (run_steps pv mv s ks).x_estimate[j]? = s.x_estimate[j]? ∧
      (run_steps pv mv s ks).error_estimate[j]? = s.error_estimate[j]? := by
  induction ks with
  | nil => intro s; exact ⟨rfl, rfl⟩
  | cons k ks ih =>
    intro s
    have hk : j ≠ k := fun h => (hj k (by simp)) h.symm
    have step := kalman_step_get_ne pv mv s k j hk
    have rest := ih (fun a ha => hj a (by simp [ha])) (kalman_step pv mv s k)
    rw [run_steps_cons]
    exact ⟨rest.1.trans step.1, rest.2.trans step.2⟩

/-! ### Correspondence between the in-place loop and the pair recursion -/

theorem kalman_pair_snd_eq_error_seq (pv mv : ℚ) (zf : ℕ → ℚ) (x0 p0 : ℚ) :
    ∀ k, (kalman_pair pv mv zf x0 p0 k).2 = error_seq pv mv p0 k := by
  intro k
  induction k with
  | zero => rfl
  | succ k ih => simp [kalman_pair, error_seq, ih]

theorem init_state_length_x_estimate (n : ℕ) (z : List ℚ) (x0 p0 : ℚ) :
    (init_state n z x0 p0).x_estimate.length = n := by
  simp [init_state]

theorem init_state_length_error_estimate (n : ℕ) (z : List ℚ) (x0 p0 : ℚ) :
    (init_state n z x0 p0).error_estimate.length = n := by
  simp [init_state]

/-- After running steps `1, ..., m` of the loop, entry `j` of the estimate and
error arrays holds the pair recursion's value for `j ≤ m` and is still the
initial `0` for `j > m`. -/
theorem run_range_spec (pv mv x0 p0 : ℚ) (z : List ℚ) (n : ℕ) :
    ∀ m, m ≤ n - 1 → ∀ j, j < n →
      (run_steps pv mv (init_state n z x0 p0) (List.range' 1 m)).x_estimate[j]?
        = some (if j ≤ m then (kalman_pair pv mv (fun i => z.getD i 0) x0 p0 j).1 else 0) ∧
      (run_steps pv mv (init_state n z x0 p0) (List.range' 1 m)).error_estimate[j]?
        = some (if j ≤ m then (kalman_pair pv mv (fun i => z.getD i 0) x0 p0 j).2 else 0) := by
  intro m
  induction m with
  | zero =>
    intro _ j hj
    rw [show List.range' 1 0 = [] from rfl, run_steps_nil]
    rcases Nat.eq_zero_or_pos j with hj0 | hj0
    · subst hj0
      have hlen : (0:ℕ) < (List.replicate n (0:ℚ)).length := by
        simpa using hj
      constructor <;> simp [init_state, List.getElem?_set_self hlen, kalman_pair]
    · have h0 : (0:ℕ) ≠ j := by omega
      have hj' : ¬ j ≤ 0 := by omega
      constructor <;>
        simp [init_state, List.getElem?_set_ne h0, List.getElem?_replicate_of_lt hj, hj']
  | succ m ih =>
    intro hm j hj
    have hm' : m ≤ n - 1 := Nat.le_of_succ_le hm
    have hmn : m + 1 < n := by omega
    rw [List.range'_1_concat, run_steps_append, run_steps_cons, run_steps_nil,
      Nat.add_comm 1 m]
    rcases eq_or_ne j (m + 1) with hje | hjne
    · subst hje
      have ihm := ih hm' m (by omega)
      have hxlen : m + 1 <
          (run_steps pv mv (init_state n z x0 p0) (List.range' 1 m)).x_estimate.length := by
        rw [run_steps_length_x_estimate, init_state_length_x_estimate]; exact hmn
      have helen : m + 1 <
          (run_steps pv mv (init_state n z x0 p0) (List.range' 1 m)).error_estimate.length := by
        rw [run_steps_length_error_estimate, init_state_length_error_estimate]; exact hmn
      have hz : (run_steps pv mv (init_state n z x0 p0) (List.range' 1 m)).z = z := by
        rw [run_steps_z_eq]; rfl
      have hxg : (run_steps pv mv (init_state n z x0 p0) (List.range' 1 m)).x_estimate.getD m 0
          = (kalman_pair pv mv (fun i => z.getD i 0) x0 p0 m).1 := by
        rw [List.getD_eq_getElem?_getD, (ihm).1]
        simp
      have heg : (run_steps pv mv (init_state n z x0 p0) (List.range' 1 m)).error_estimate.getD m 0
          = (kalman_pair pv mv (fun i => z.getD i 0) x0 p0 m).2 := by
        rw [List.getD_eq_getElem?_getD, (ihm).2]
        simp
      constructor
      · show ((kalman_step pv mv _ (m + 1)).x_estimate)[m + 1]? = _
        rw [show ∀ s : KState, (kalman_step pv mv s (m + 1)).x_estimate
            = s.x_estimate.set (m + 1)
              (calculate_x_estimate (s.x_estimate.getD (m + 1 - 1) 0)
                (calculate_kalman_gain
                  (calculate_model_variance (s.error_estimate.getD (m + 1 - 1) 0) pv) mv)
                (s.z.getD (m + 1) 0)) from fun s => rfl]
        rw [List.getElem?_set_self (by simpa using hxlen)]
        simp only [Nat.add_sub_cancel, hxg, heg, hz]
        simp [kalman_pair]
      · show ((kalman_step pv mv _ (m + 1)).error_estimate)[m + 1]? = _
        rw [show ∀ s : KState, (kalman_step pv mv s (m + 1)).error_estimate
            = s.error_estimate.set (m + 1)
              (calculate_error_estimate
                (calculate_kalman_gain
                  (calculate_model_variance (s.error_estimate.getD (m + 1 - 1) 0) pv) mv)
                (calculate_model_variance (s.error_estimate.getD (m + 1 - 1) 0) pv)) from
          fun s => rfl]
        rw [List.getElem?_set_self (by simpa using helen)]
        simp only [Nat.add_sub_cancel, heg]
        simp [kalman_pair]
    · have step := kalman_step_get_ne pv mv
        (run_steps pv mv (init_state n z x0 p0) (List.range' 1 m)) (m + 1) j hjne
      have ihj := ih hm' j hj
      have hiff : j ≤ m + 1 ↔ j ≤ m := by omega
      rw [step.1, step.2, ihj.1, ihj.2]
      constructor <;> rw [if_congr hiff rfl rfl]

/-! ### Analytic lemmas on the error recursion -/

theorem error_seq_succ (pv mv p0 : ℚ) (k : ℕ) :
    error_seq pv mv p0 (k + 1)
      = calculate_error_estimate
          (calculate_kalman_gain (calculate_model_variance (error_seq pv mv p0 k) pv) mv)
          (calculate_model_variance (error_seq pv mv p0 k) pv) := rfl

theorem error_seq_nonneg (pv mv p0 : ℚ) (hpv : 0 ≤ pv) (hmv : 0 ≤ mv) (hp0 : 0 ≤ p0) :
    ∀ k, 0 ≤ error_seq pv mv p0 k := by
  intro k
  induction k with
  | zero => exact hp0
  | succ k ih =>
    rw [error_seq_succ]
    unfold calculate_error_estimate calculate_kalman_gain calculate_model_variance
    set P := error_seq pv mv p0 k with hP
    rcases eq_or_lt_of_le (by linarith : (0:ℚ) ≤ (P + pv) + mv) with h0 | hpos
    · have h1 : P + pv = 0 := by linarith
      rw [h1]
      simp
    · have hK : 1 - (P + pv) / (P + pv + mv) = mv / (P + pv + mv) := by
        field_simp
      rw [hK]
      exact mul_nonneg (div_nonneg hmv hpos.le) (by linarith)

theorem calculate_kalman_gain_mem (mvm mv : ℚ) (hm : 0 ≤ mvm) (hmv : 0 < mv) :
    0 ≤ calculate_kalman_gain mvm mv ∧ calculate_kalman_gain mvm mv ≤ 1 := by
  unfold calculate_kalman_gain
  have hden : 0 < mvm + mv := by linarith
  exact ⟨div_nonneg hm hden.le, (div_le_one hden).mpr (by linarith)⟩

theorem error_seq_zero_pv_closed (mv p0 : ℚ) (hmv : 0 < mv) (hp0 : 0 ≤ p0) :
    ∀ k : ℕ, error_seq 0 mv p0 k = p0 * mv / (k * p0 + mv) := by
  intro k
  induction k with
  | zero =>
    rw [show error_seq 0 mv p0 0 = p0 from rfl]
    field_simp
  | succ k ih =>
    have hden : (0:ℚ) < (k : ℚ) * p0 + mv := by positivity
    have hP : 0 ≤ error_seq 0 mv p0 k := error_seq_nonneg 0 mv p0 le_rfl hmv.le hp0 k
    rw [error_seq_succ, ih]
    unfold calculate_error_estimate calculate_kalman_gain calculate_model_variance
    have hden3 : (0:ℚ) < p0 * mv / ((k : ℚ) * p0 + mv) + 0 + mv := by positivity
    push_cast
    have h1 : (k : ℚ) * p0 + mv ≠ 0 := ne_of_gt hden
    have h2 : p0 * mv / ((k : ℚ) * p0 + mv) + 0 + mv ≠ 0 := ne_of_gt hden3
    have h4 : ((k : ℚ) + 1) * p0 + mv ≠ 0 := by positivity
    field_simp
    ring

/-! ### Claim theorems -/

/-- C1: for every step `k` with `1 ≤ k ≤ N-1`, the recursion computes exactly
the four-equation predict/update step — `model_variance = P[k-1] + pv`,
`K = model_variance / (model_variance + mv)`,
`x_hat[k] = x_hat[k-1] + K * (z[k] - x_hat[k-1])`,
`P[k] = (1 - K) * model_variance` — reading only `(x_hat[k-1], P[k-1])` and
`z[k]`. -/
theorem C1_predict_update_step (n : ℕ) (pv mv x0 p0 : ℚ) (z : List ℚ) (k : ℕ)
    (hk1 : 1 ≤ k) (hk2 : k ≤ n - 1) :
    ∃ xprev pprev,
      (kalman_filter n pv mv z x0 p0).x_estimate[k - 1]? = some xprev ∧
      (kalman_filter n pv mv z x0 p0).error_estimate[k - 1]? = some pprev ∧
      (kalman_filter n pv mv z x0 p0).x_estimate[k]?
        = some (xprev + ((pprev + pv) / ((pprev + pv) + mv)) * (z.getD k 0 - xprev)) ∧
      (kalman_filter n pv mv z x0 p0).error_estimate[k]?
        = some ((1 - (pprev + pv) / ((pprev + pv) + mv)) * (pprev + pv)) := by
  obtain ⟨k', rfl⟩ : ∃ k', k = k' + 1 := ⟨k - 1, by omega⟩
  unfold kalman_filter
  have hn : k' + 1 < n := by omega
  have hn' : k' < n := by omega
  obtain ⟨h1x, h1e⟩ := run_range_spec pv mv x0 p0 z n (n - 1) le_rfl k' hn'
  obtain ⟨h2x, h2e⟩ := run_range_spec pv mv x0 p0 z n (n - 1) le_rfl (k' + 1) hn
  rw [if_pos (by omega : k' ≤ n - 1)] at h1x h1e
  rw [if_pos hk2] at h2x h2e
  refine ⟨(kalman_pair pv mv (fun i => z.getD i 0) x0 p0 k').1,
    (kalman_pair pv mv (fun i => z.getD i 0) x0 p0 k').2, ?_, ?_, ?_, ?_⟩
  · simpa using h1x
  · simpa using h1e
  · rw [h2x]
    simp [kalman_pair, calculate_x_estimate, calculate_kalman_gain, calculate_model_variance]
  · rw [h2e]
    simp [kalman_pair, calculate_error_estimate, calculate_kalman_gain, calculate_model_variance]

theorem C1_predict_update_step_witness :
    (1:ℕ) ≤ 1 ∧ (1:ℕ) ≤ 4 - 1 ∧
    (∃ xprev pprev,
      (kalman_filter 4 0 (1/10) [0, 1, -1, 1/2] 0 1).x_estimate[1 - 1]? = some xprev ∧
      (kalman_filter 4 0 (1/10) [0, 1, -1, 1/2] 0 1).error_estimate[1 - 1]? = some pprev ∧
      (kalman_filter 4 0 (1/10) [0, 1, -1, 1/2] 0 1).x_estimate[1]?
        = some (xprev + ((pprev + 0) / ((pprev + 0) + 1/10))
            * (([0, 1, -1, 1/2] : List ℚ).getD 1 0 - xprev)) ∧
      (kalman_filter 4 0 (1/10) [0, 1, -1, 1/2] 0 1).error_estimate[1]?
        = some ((1 - (pprev + 0) / ((pprev + 0) + 1/10)) * (pprev + 0))) :=
  ⟨le_rfl, by norm_num,
    C1_predict_update_step 4 0 (1/10) 0 1 [0, 1, -1, 1/2] 1 le_rfl (by norm_num)⟩

/-- As long as the measurement variance is positive (and `pv ≥ 0`, `p0 ≥ 0`),
the gain's denominator never vanishes, so the NaN-propagating error recursion
agrees with the total one. -/
theorem nan_error_seq_eq_error_seq (pv mv p0 : ℚ) (hpv : 0 ≤ pv) (hmv : 0 < mv)
    (hp0 : 0 ≤ p0) : ∀ k, nan_error_seq pv mv p0 k = some (error_seq pv mv p0 k) := by
  intro k
  induction k with
  | zero => rfl
  | succ k ih =>
    have hP := error_seq_nonneg pv mv p0 hpv hmv.le hp0 k
    have hden : calculate_model_variance (error_seq pv mv p0 k) pv + mv ≠ 0 := by
      unfold calculate_model_variance
      have h : (0:ℚ) < error_seq pv mv p0 k + pv + mv := by linarith
      exact h.ne'
    simp [nan_error_seq, ih, nan_kalman_gain, hden, error_seq_succ]

/-- A positive step count initialises successfully, and the checked filter
then computes exactly what the total model does. -/
theorem checked_kalman_filter_pos (n : ℤ) (hn : 0 < n) (pv mv : ℚ) (z : List ℚ)
    (x0 p0 : ℚ) :
    checked_kalman_filter n pv mv z x0 p0
      = some (kalman_filter n.toNat pv mv z x0 p0) := by
  have hlen : (0:ℕ) < (List.replicate n.toNat (0:ℚ)).length := by
    simp
    omega
  have hinit : checked_init_state n z x0 p0 = some (init_state n.toNat z x0 p0) := by
    unfold checked_init_state checked_set init_state
    rw [if_neg (by omega : ¬ n < 0), if_pos hlen, if_pos hlen]
  unfold checked_kalman_filter kalman_filter
  rw [hinit]
  rfl

/-- A zero step count fails during initialisation: `x_estimate[0] = x0` is an
out-of-range write on the empty allocation. -/
theorem checked_kalman_filter_zero (pv mv : ℚ) (z : List ℚ) (x0 p0 : ℚ) :
    checked_kalman_filter 0 pv mv z x0 p0 = none := rfl

/-- A negative step count fails at allocation. -/
theorem checked_kalman_filter_neg (n : ℤ) (hn : n < 0) (pv mv : ℚ) (z : List ℚ)
    (x0 p0 : ℚ) :
    checked_kalman_filter n pv mv z x0 p0 = none := by
  unfold checked_kalman_filter checked_init_state
  rw [if_pos hn]
  rfl

/-- C4 counterexample: the claim also covers `pv = mv = 0`, where the program
does not keep `P` non-negative — the step-2 gain is the float division
`0.0/0.0` (NaN, since `P[1] = 0`), so `P[2]` is a non-number rather than a
value `≥ 0`: the NaN-propagating error recursion returns `none` at `k = 2`. -/
theorem C4_error_estimate_nonneg_counterexample :
    nan_error_seq 0 0 1 2 = none ∧
    ¬ ∃ p : ℚ, nan_error_seq 0 0 1 2 = some p ∧ 0 ≤ p := by
  have h : nan_error_seq 0 0 1 2 = none := by
    norm_num [nan_error_seq, nan_kalman_gain, calculate_model_variance,
      calculate_kalman_gain, calculate_error_estimate, Option.bind]
  exact ⟨h, by simp [h]⟩

/-- C4 amended: for every `k < N`, all `pv ≥ 0` and all `mv > 0` (with
`P[0] = 1`) the error-estimate sequence satisfies `P[k] ≥ 0`; under these
hypotheses no step's gain denominator vanishes, so the NaN-propagating
recursion agrees with the total one (`mv = 0` must be excluded: there `P[2]`
is NaN). -/
theorem C4_error_estimate_nonneg_amended (n : ℕ) (pv mv : ℚ) (z : List ℚ) (x0 : ℚ)
    (k : ℕ) (hpv : 0 ≤ pv) (hmv : 0 < mv) (hk : k < n) :
    nan_error_seq pv mv 1 k = some (error_seq pv mv 1 k) ∧
    (∃ p, (kalman_filter n pv mv z x0 1).error_estimate[k]? = some p ∧ 0 ≤ p) := by
  refine ⟨nan_error_seq_eq_error_seq pv mv 1 hpv hmv (by norm_num) k, ?_⟩
  unfold kalman_filter
  obtain ⟨hx, he⟩ := run_range_spec pv mv x0 1 z n (n - 1) le_rfl k hk
  refine ⟨_, he, ?_⟩
  by_cases h : k ≤ n - 1
  · rw [if_pos h, kalman_pair_snd_eq_error_seq]
    exact error_seq_nonneg pv mv 1 hpv hmv.le (by norm_num) k
  · rw [if_neg h]

theorem C4_error_estimate_nonneg_amended_witness :
    (0:ℚ) ≤ 0 ∧ (0:ℚ) < 1/10 ∧ (2:ℕ) < 4 ∧
    (nan_error_seq 0 (1/10) 1 2 = some (error_seq 0 (1/10) 1 2) ∧
     ∃ p, (kalman_filter 4 0 (1/10) [0, 1, -1, 1/2] 0 1).error_estimate[2]? = some p ∧
      0 ≤ p) :=
  ⟨le_rfl, by norm_num, by norm_num,
    C4_error_estimate_nonneg_amended 4 0 (1/10) [0, 1, -1, 1/2] 0 2 le_rfl
      (by norm_num) (by norm_num)⟩

/-- C5: at every step, whenever the model variance is non-negative and the
measurement variance is positive, the Kalman gain lies in `[0, 1]`. -/
theorem C5_gain_unit_interval (pv mv p0 : ℚ) (k : ℕ)
    (hm : 0 ≤ calculate_model_variance (error_seq pv mv p0 k) pv) (hmv : 0 < mv) :
    0 ≤ calculate_kalman_gain (calculate_model_variance (error_seq pv mv p0 k) pv) mv ∧
    calculate_kalman_gain (calculate_model_variance (error_seq pv mv p0 k) pv) mv ≤ 1 :=
  calculate_kalman_gain_mem _ mv hm hmv

theorem C5_gain_unit_interval_witness :
    (0:ℚ) ≤ calculate_model_variance (error_seq 0 (1/10) 1 0) 0 ∧ (0:ℚ) < 1/10 ∧
    (0 ≤ calculate_kalman_gain (calculate_model_variance (error_seq 0 (1/10) 1 0) 0) (1/10) ∧
      calculate_kalman_gain (calculate_model_variance (error_seq 0 (1/10) 1 0) 0) (1/10) ≤ 1) :=
  ⟨by norm_num [calculate_model_variance, error_seq], by norm_num,
    C5_gain_unit_interval 0 (1/10) 1 0
      (by norm_num [calculate_model_variance, error_seq]) (by norm_num)⟩

/-- C2 counterexample: on the golden sequence the recursion yields
`x_hat[2] = 0` exactly, not `≈ 0.4334` as claimed (the remaining golden
values are right, see the amended theorem). -/
theorem C2_golden_values_counterexample :
    (kalman_filter 4 0 (1/10) [0, 1, -1, 1/2] 0 1).x_estimate[2]? = some 0 ∧
    ¬ |(0 : ℚ) - 4334/10000| ≤ 1/10 := by
  constructor
  · rw [golden_run_x_estimate]
    rfl
  · rw [zero_sub, abs_neg, abs_of_nonneg (by norm_num : (0:ℚ) ≤ 4334/10000)]
    norm_num

/-- C2 amended: the golden run reproduces, in exact arithmetic,
`model_variance = 1`, `K[1] = 10/11 ≈ 0.9091`, `x_hat[1] = 10/11 ≈ 0.9091`,
`P[1] = 1/11 ≈ 0.0909`; and at step 2 `model_variance = 1/11 ≈ 0.0909`,
`K[2] = 10/21 ≈ 0.4762`, `P[2] = 1/21 ≈ 0.0476` — but `x_hat[2] = 0`
(the claimed `≈ 0.4334` is wrong). -/
theorem C2_golden_values_amended :
    (kalman_filter 4 0 (1/10) [0, 1, -1, 1/2] 0 1).x_estimate = [0, 10/11, 0, 5/31] ∧
    (kalman_filter 4 0 (1/10) [0, 1, -1, 1/2] 0 1).error_estimate = [1, 1/11, 1/21, 1/31] ∧
    calculate_model_variance 1 0 = 1 ∧
    calculate_kalman_gain 1 (1/10) = 10/11 ∧
    calculate_model_variance (1/11) 0 = 1/11 ∧
    calculate_kalman_gain (1/11) (1/10) = 10/21 ∧
    |10/11 - (9091 : ℚ)/10000| ≤ 1/10000 ∧
    |1/11 - (909 : ℚ)/10000| ≤ 1/10000 ∧
    |10/21 - (4762 : ℚ)/10000| ≤ 1/10000 ∧
    |1/21 - (476 : ℚ)/10000| ≤ 1/10000 := by
  refine ⟨golden_run_x_estimate, golden_run_error_estimate, ?_, ?_, ?_, ?_, ?_, ?_, ?_, ?_⟩
  · norm_num [calculate_model_variance]
  · norm_num [calculate_kalman_gain]
  · norm_num [calculate_model_variance]
  · norm_num [calculate_kalman_gain]
  all_goals rw [abs_le]; constructor <;> norm_num

/-- C3 counterexample: a negative `measurement_variance` is not rejected — the
filter initialises (`some`, no exception), runs every step and writes its
outputs (`x_hat = [0, 10/9, 20/19]`, entry 1 already non-initial), refuting
"fails eagerly ... no element of any output sequence is written" for negative
variance parameters. -/
theorem C3_no_validation_counterexample :
    checked_kalman_filter 3 0 (-1/10) [1, 1, 1] 0 1
      = some (kalman_filter 3 0 (-1/10) [1, 1, 1] 0 1) ∧
    (kalman_filter 3 0 (-1/10) [1, 1, 1] 0 1).x_estimate = [0, 10/9, 20/19] ∧
    (10/9 : ℚ) ≠ 0 := by
  refine ⟨checked_kalman_filter_pos 3 (by norm_num) 0 (-1/10) [1, 1, 1] 0 1,
    ?_, by norm_num⟩
  norm_num [kalman_filter, run_steps, init_state, kalman_step,
    calculate_model_variance, calculate_kalman_gain, calculate_x_estimate,
    calculate_error_estimate, List.range', List.replicate]

/-- C3 amended: there is no explicit argument validation. Negative variance
parameters are not rejected: for every positive step count the recursion
completes without failure and returns both outputs with length `N`, whatever
the variances. The step count itself does make the program fail, but not by
an eager check: `N = 0` fails with an index error when initialisation writes
`x_estimate[0]` (after the arrays were allocated and the measurements drawn),
and `N < 0` fails when the allocation itself rejects the negative size; in
both cases no recursion step runs and no output is produced. -/
theorem C3_no_validation_amended :
    (∀ n : ℤ, 0 < n → ∀ (pv mv : ℚ) (z : List ℚ) (x0 p0 : ℚ),
      ∃ s, checked_kalman_filter n pv mv z x0 p0 = some s ∧
        s.x_estimate.length = n.toNat ∧ s.error_estimate.length = n.toNat) ∧
    (∀ (pv mv : ℚ) (z : List ℚ) (x0 p0 : ℚ),
      checked_kalman_filter 0 pv mv z x0 p0 = none) ∧
    (∀ n : ℤ, n < 0 → ∀ (pv mv : ℚ) (z : List ℚ) (x0 p0 : ℚ),
      checked_kalman_filter n pv mv z x0 p0 = none) := by
  refine ⟨?_, ?_, ?_⟩
  · intro n hn pv mv z x0 p0
    refine ⟨kalman_filter n.toNat pv mv z x0 p0,
      checked_kalman_filter_pos n hn pv mv z x0 p0, ?_, ?_⟩
    · unfold kalman_filter
      rw [run_steps_length_x_estimate, init_state_length_x_estimate]
    · unfold kalman_filter
      rw [run_steps_length_error_estimate, init_state_length_error_estimate]
  · intro pv mv z x0 p0
    exact checked_kalman_filter_zero pv mv z x0 p0
  · intro n hn pv mv z x0 p0
    exact checked_kalman_filter_neg n hn pv mv z x0 p0

theorem C3_no_validation_amended_witness :
    ((0:ℤ) < 3 ∧
      ∃ s, checked_kalman_filter 3 0 (-1/10) [1, 1, 1] 0 1 = some s ∧
        s.x_estimate.length = (3:ℤ).toNat ∧ s.error_estimate.length = (3:ℤ).toNat) ∧
    ((-1:ℤ) < 0 ∧ checked_kalman_filter (-1) 0 (1/10) [] 0 1 = none) :=
  ⟨⟨by norm_num, C3_no_validation_amended.1 3 (by norm_num) 0 (-1/10) [1, 1, 1] 0 1⟩,
   ⟨by norm_num, C3_no_validation_amended.2.2 (-1) (by norm_num) 0 (1/10) [] 0 1⟩⟩

/-- C6: with `pv = 0`, `mv > 0`, `P[0] = 1`, the error sequence is
non-increasing, satisfies `P[4999] < P[10]` (the spec's `N = 5000` check), and
is exactly the error column of the filter run. -/
theorem C6_monotone_convergence (mv : ℚ) (hmv : 0 < mv) :
    (∀ k : ℕ, error_seq 0 mv 1 (k + 1) ≤ error_seq 0 mv 1 k) ∧
    error_seq 0 mv 1 4999 < error_seq 0 mv 1 10 ∧
    (∀ (n : ℕ) (z : List ℚ) (x0 : ℚ) (k : ℕ), k < n →
      (kalman_filter n 0 mv z x0 1).error_estimate[k]? = some (error_seq 0 mv 1 k)) := by
  have hc := error_seq_zero_pv_closed mv 1 hmv (by norm_num)
  refine ⟨?_, ?_, ?_⟩
  · intro k
    rw [hc, hc]
    have h1 : (0:ℚ) < (k : ℚ) + mv := by positivity
    push_cast
    rw [one_mul, mul_one, mul_one]
    gcongr
    linarith
  · rw [hc, hc]
    push_cast
    norm_num
    have h1 : (0:ℚ) < (10 : ℚ) + mv := by positivity
    apply div_lt_div_of_pos_left hmv h1
    linarith
  · intro n z x0 k hk
    unfold kalman_filter
    obtain ⟨_, he⟩ := run_range_spec 0 mv x0 1 z n (n - 1) le_rfl k hk
    rw [he, if_pos (by omega), kalman_pair_snd_eq_error_seq]

theorem C6_monotone_convergence_witness :
    (0:ℚ) < 1/10 ∧
    ((∀ k : ℕ, error_seq 0 (1/10) 1 (k + 1) ≤ error_seq 0 (1/10) 1 k) ∧
     error_seq 0 (1/10) 1 4999 < error_seq 0 (1/10) 1 10 ∧
     (∀ (n : ℕ) (z : List ℚ) (x0 : ℚ) (k : ℕ), k < n →
       (kalman_filter n 0 (1/10) z x0 1).error_estimate[k]?
         = some (error_seq 0 (1/10) 1 k))) :=
  ⟨by norm_num, C6_monotone_convergence (1/10) (by norm_num)⟩

/-- C7: under `mv > 0`, `pv ≥ 0`, `P[0] ≥ 0` the gain's denominator
`model_variance + mv` is strictly positive at every step, so the division
never divides by zero; with `pv = 0` and `mv = 0` (and `P[0] = 1`) the step
`k = 2` gain is a `0/0` division: its numerator (the model variance) and its
denominator are both exactly `0`. -/
theorem C7_gain_denominator (pv mv p0 : ℚ) :
    (0 < mv → 0 ≤ pv → 0 ≤ p0 → ∀ k : ℕ,
      0 < calculate_model_variance (error_seq pv mv p0 k) pv + mv) ∧
    (calculate_model_variance (error_seq 0 0 1 1) 0 + 0 = 0 ∧
     calculate_model_variance (error_seq 0 0 1 1) 0 = 0) := by
  constructor
  · intro hmv hpv hp0 k
    have hP := error_seq_nonneg pv mv p0 hpv hmv.le hp0 k
    unfold calculate_model_variance
    linarith
  · have h1 : error_seq 0 0 1 1 = 0 := by
      rw [error_seq_succ]
      norm_num [calculate_model_variance, calculate_kalman_gain, calculate_error_estimate,
        error_seq]
    rw [h1]
    norm_num [calculate_model_variance]

theorem C7_gain_denominator_witness :
    ((0:ℚ) < 1/10 ∧ (0:ℚ) ≤ 0 ∧ (0:ℚ) ≤ 1) ∧
    (0 < calculate_model_variance (error_seq 0 (1/10) 1 5) 0 + 1/10) :=
  ⟨⟨by norm_num, le_rfl, by norm_num⟩,
    (C7_gain_denominator 0 (1/10) 1).1 (by norm_num) le_rfl (by norm_num) 5⟩

/-- C8: the recursion is a pure function of `(N, pv, mv, z, x0, p0)` — it
introduces no randomness of its own — and on a measurement sequence of
length `N` both outputs have length `N`; two runs on equal inputs return
identical outputs. -/
theorem C8_deterministic (n : ℕ) (pv mv : ℚ) (z : List ℚ) (x0 p0 : ℚ)
    (h : z.length = n) :
    (kalman_filter n pv mv z x0 p0).x_estimate.length = n ∧
    (kalman_filter n pv mv z x0 p0).error_estimate.length = n ∧
    ∀ z' : List ℚ, z' = z →
      kalman_filter n pv mv z' x0 p0 = kalman_filter n pv mv z x0 p0 := by
  refine ⟨?_, ?_, fun z' hz => by rw [hz]⟩
  · unfold kalman_filter
    rw [run_steps_length_x_estimate, init_state_length_x_estimate]
  · unfold kalman_filter
    rw [run_steps_length_error_estimate, init_state_length_error_estimate]

theorem C8_deterministic_witness :
    ([0, 1, -1, 1/2] : List ℚ).length = 4 ∧
    ((kalman_filter 4 0 (1/10) [0, 1, -1, 1/2] 0 1).x_estimate.length = 4 ∧
     (kalman_filter 4 0 (1/10) [0, 1, -1, 1/2] 0 1).error_estimate.length = 4 ∧
     ∀ z' : List ℚ, z' = [0, 1, -1, 1/2] →
       kalman_filter 4 0 (1/10) z' 0 1 = kalman_filter 4 0 (1/10) [0, 1, -1, 1/2] 0 1) :=
  ⟨rfl, C8_deterministic 4 0 (1/10) [0, 1, -1, 1/2] 0 1 rfl⟩

/-- C9: frame property of the loop — the truth and measurement sequences are
never modified; an iteration with step index `k` leaves every entry `j ≠ k`
of both output arrays untouched; running the steps `k, k+1, ..., k+m-1` never
rewrites an already-written index `j < k`; and the full filter returns `z`
and `x` unchanged. -/
theorem C9_frame_property (pv mv : ℚ) :
    (∀ (s : KState) (l : List ℕ),
      (run_steps pv mv s l).x = s.x ∧ (run_steps pv mv s l).z = s.z) ∧
    (∀ (s : KState) (k j : ℕ), j ≠ k →
      (kalman_step pv mv s k).x_estimate[j]? = s.x_estimate[j]? ∧
      (kalman_step pv mv s k).error_estimate[j]? = s.error_estimate[j]?) ∧
    (∀ (s : KState) (k m j : ℕ), j < k →
      (run_steps pv mv s (List.range' k m)).x_estimate[j]? = s.x_estimate[j]? ∧
      (run_steps pv mv s (List.range' k m)).error_estimate[j]? = s.error_estimate[j]?) ∧
    (∀ (n : ℕ) (z : List ℚ) (x0 p0 : ℚ),
      (kalman_filter n pv mv z x0 p0).z = z ∧
      (kalman_filter n pv mv z x0 p0).x = List.replicate n 0) := by
  refine ⟨?_, ?_, ?_, ?_⟩
  · intro s l
    exact ⟨run_steps_x_eq pv mv l s, run_steps_z_eq pv mv l s⟩
  · intro s k j hj
    exact kalman_step_get_ne pv mv s k j hj
  · intro s k m j hj
    refine run_steps_get_not_mem pv mv (List.range' k m) j ?_ s
    intro i hi
    obtain ⟨a, _, rfl⟩ := List.mem_range'.mp hi
    omega
  · intro n z x0 p0
    unfold kalman_filter
    rw [run_steps_x_eq, run_steps_z_eq]
    exact ⟨rfl, rfl⟩

theorem C9_frame_property_witness :
    ((1:ℕ) ≠ 2 ∧ (1:ℕ) < 2) ∧
    ((kalman_step 0 (1/10) (init_state 3 [1, 2, 3] 0 1) 2).x_estimate[1]?
        = (init_state 3 [1, 2, 3] 0 1).x_estimate[1]? ∧
     (kalman_step 0 (1/10) (init_state 3 [1, 2, 3] 0 1) 2).error_estimate[1]?
        = (init_state 3 [1, 2, 3] 0 1).error_estimate[1]?) ∧
    ((run_steps 0 (1/10) (init_state 3 [1, 2, 3] 0 1) (List.range' 2 1)).x_estimate[1]?
        = (init_state 3 [1, 2, 3] 0 1).x_estimate[1]? ∧
     (run_steps 0 (1/10) (init_state 3 [1, 2, 3] 0 1) (List.range' 2 1)).error_estimate[1]?
        = (init_state 3 [1, 2, 3] 0 1).error_estimate[1]?) :=
  ⟨⟨by norm_num, by norm_num⟩,
    (C9_frame_property 0 (1/10)).2.1 (init_state 3 [1, 2, 3] 0 1) 2 1 (by norm_num),
    (C9_frame_property 0 (1/10)).2.2.1 (init_state 3 [1, 2, 3] 0 1) 2 1 1 (by norm_num)⟩

/-- C10: in exact arithmetic with `pv = 0`, `mv > 0`, `P[0] > 0`, the error
recursion equals the closed form `P[k] = P[0]*mv/(k*P[0]+mv)`; equivalently
`1/P[k] = 1/P[0] + k/mv`; with the defaults `P[0] = 1`, `mv = 1/10` this is
`P[k] = 1/(1 + 10k)`. -/
theorem C10_closed_form (mv p0 : ℚ) (hmv : 0 < mv) (hp0 : 0 < p0) :
    (∀ k : ℕ, error_seq 0 mv p0 k = error_closed_form p0 mv k) ∧
    (∀ k : ℕ, 1 / error_seq 0 mv p0 k = 1 / p0 + (k : ℚ) / mv) ∧
    (∀ k : ℕ, error_seq 0 (1/10) 1 k = 1 / (1 + 10 * (k : ℚ))) := by
  have hc := error_seq_zero_pv_closed mv p0 hmv hp0.le
  refine ⟨fun k => by rw [hc]; rfl, ?_, ?_⟩
  · intro k
    rw [hc]
    have h1 : (k : ℚ) * p0 + mv ≠ 0 := by positivity
    have h2 : mv ≠ 0 := ne_of_gt hmv
    have h3 : p0 ≠ 0 := ne_of_gt hp0
    field_simp
    ring
  · intro k
    rw [error_seq_zero_pv_closed (1/10) 1 (by norm_num) (by norm_num)]
    have h1 : (0:ℚ) < (k : ℚ) * 1 + 1/10 := by positivity
    have h2 : (0:ℚ) < 1 + 10 * (k : ℚ) := by positivity
    rw [div_eq_div_iff h1.ne' h2.ne']
    ring

theorem C10_closed_form_witness :
    ((0:ℚ) < 1/10 ∧ (0:ℚ) < 1) ∧
    ((∀ k : ℕ, error_seq 0 (1/10) 1 k = error_closed_form 1 (1/10) k) ∧
     (∀ k : ℕ, 1 / error_seq 0 (1/10) 1 k = 1 / 1 + (k : ℚ) / (1/10)) ∧
     (∀ k : ℕ, error_seq 0 (1/10) 1 k = 1 / (1 + 10 * (k : ℚ)))) :=
  ⟨⟨by norm_num, by norm_num⟩, C10_closed_form (1/10) 1 (by norm_num) (by norm_num)⟩
